import Mathlib

/-!
Shallow embedding of the media performance dashboard (`src/check2.py`):
data loading and cleaning with CPI derivation (`load_data`), asset
classification into video / image / text, title resolution with
memoization (`get_youtube_title` under `st.cache_data`), the
filter/sort/paginate engine, and the aggregate summary.  Network effects
(HTTP GET for titles, HEAD for content types) are modelled as explicit
oracle functions passed to the embedded code; numeric cells are modelled
as rationals, with a failed `pd.to_numeric` coercion modelled as `none`.
-/

namespace Dashboard

/-- Python's substring test `pat in s`. -/
def strContains (s pat : String) : Bool :=
  decide (pat.toList <:+: s.toList)

/-- Python's `s.startswith(pat)`. -/
def strStartsWith (s pat : String) : Bool :=
  decide (pat.toList <+: s.toList)

/-- Python's `url.split('/')[-1]`: the substring after the final slash
(the whole string when there is no slash, the empty string when the string
ends with a slash), computed as the longest slash-free suffix. -/
def lastSegment (url : String) : String :=
  ⟨(url.data.reverse.takeWhile (fun c => c ≠ '/')).reverse⟩

/-- One step bound of `pyRemove` below: scan left to right, and at each
position either skip a full occurrence of `pat` or keep one character, so
`fuel = s.length` always suffices. -/
def removeAux (pat : List Char) : Nat → List Char → List Char
  | _, [] => []
  | 0, l => l
  | fuel + 1, c :: rest =>
    if pat.isPrefixOf (c :: rest) && !pat.isEmpty then
      removeAux pat fuel (rest.drop (pat.length - 1))
    else
      c :: removeAux pat fuel rest

/-- Python's `s.replace(pat, '')`: remove every non-overlapping occurrence
of `pat`, scanning left to right. -/
def pyRemove (s pat : List Char) : List Char :=
  removeAux pat s.length s

/-- Python's `s.strip()`: drop leading and trailing whitespace. -/
def pyStrip (s : List Char) : List Char :=
  ((s.dropWhile Char.isWhitespace).reverse.dropWhile Char.isWhitespace).reverse

/-- Outcome of the `requests.get` call plus the BeautifulSoup title search in
`get_youtube_title` (lines 61-63): the request either raises (`failure`,
caught by the bare `except`) or yields a response with an HTTP status code
and an optional `<title>` element text.  `requests.get` does not raise on a
non-2xx status, so `success` carries the status without the code ever
inspecting it. -/
inductive FetchOutcome where
  | failure
  | success (status : Nat) (titleTag : Option String)
deriving DecidableEq

/-- `get_youtube_title` (lines 58-65), with the network modelled by the
`fetch` oracle.  `title_tag.text.replace(' - YouTube','').strip()` removes
every occurrence of `" - YouTube"` and then trims surrounding whitespace;
an absent title element or any raised exception falls back to
`url.split('/')[-1]`. -/
def get_youtube_title (fetch : String → FetchOutcome) (url : String) : String :=
  match fetch url with
  | .failure => lastSegment url
  | .success _ none => lastSegment url
  | .success _ (some t) => ⟨pyStrip (pyRemove t.data " - YouTube".data)⟩

/-- `is_image_url` (lines 67-73): `head url` is the `Content-Type` header of
the HEAD response (`none` when the request raises, `some ""` when the header
is missing); the result is whether `'image'` occurs in it. -/
def is_image_url (head : String → Option String) (url : String) : Bool :=
  match head url with
  | some contentType => strContains contentType "image"
  | none => false

/-- The video-host marker test of line 148: `'youtube.com' in url or 'youtu.be' in url`. -/
def hasVideoMarker (url : String) : Bool :=
  strContains url "youtube.com" || strContains url "youtu.be"

inductive Kind where
  | video
  | image
  | text
deriving DecidableEq

structure Classification where
  kind : Kind
  displayTitle : String
deriving DecidableEq

/-- The per-card classification of lines 147-156: `is_yt` and `is_img` with
Python's short-circuit `and`, then the display-title decision. -/
def classify (fetch : String → FetchOutcome) (head : String → Option String)
    (asset : String) : Classification :=
  let url := asset
  let is_yt := strStartsWith url "http" && hasVideoMarker url
  let is_img := strStartsWith url "http" && !is_yt && is_image_url head url
  if is_yt then ⟨.video, get_youtube_title fetch url⟩
  else if is_img then ⟨.image, ""⟩
  else ⟨.text, asset⟩

/-- The condition under which line 149 actually calls `is_image_url`:
Python's `and` short-circuits, so the probe runs exactly when
`url.startswith('http')` holds and `is_yt` does not. -/
def probeInvoked (url : String) : Bool :=
  strStartsWith url "http" && !(strStartsWith url "http" && hasVideoMarker url)

/-- One spreadsheet row after the per-cell `pd.to_numeric(..., errors="coerce")`
pass of lines 50-52: a numeric cell that failed to parse is `none`. -/
structure RawRow where
  asset : String
  assetType : String
  performance : String
  clicks : Option ℚ
  ctr : Option ℚ
  impr : Option ℚ
  cost : Option ℚ
  installs : Option ℚ
  installsPerK : Option ℚ
deriving DecidableEq

/-- A row surviving the `dropna` of line 53, before CPI derivation. -/
structure Record0 where
  asset : String
  assetType : String
  performance : String
  clicks : ℚ
  ctr : ℚ
  impr : ℚ
  cost : ℚ
  installs : ℚ
deriving DecidableEq

/-- A fully loaded record, after the CPI derivation of lines 54-55. -/
structure Record where
  asset : String
  assetType : String
  performance : String
  clicks : ℚ
  ctr : ℚ
  impr : ℚ
  cost : ℚ
  installs : ℚ
  cpi : ℚ
deriving DecidableEq

/-- Whether a row survives `df.dropna(subset=['Clicks','CTR','Impr.','Cost','Installs'])`. -/
def goodRow (r : RawRow) : Bool :=
  r.clicks.isSome && r.ctr.isSome && r.impr.isSome && r.cost.isSome && r.installs.isSome

/-- The row-level effect of line 53: keep the row iff all five metric cells parsed. -/
def toRecord0 (r : RawRow) : Option Record0 :=
  match r.clicks, r.ctr, r.impr, r.cost, r.installs with
  | some cl, some ct, some im, some co, some ins =>
      some ⟨r.asset, r.assetType, r.performance, cl, ct, im, co, ins⟩
  | _, _, _, _, _ => none

/-- Line 55, `df['CPI'] = df['Cost'] / df['Installs'].replace(0,1)`: the
zero-install substitution applies only to the divisor expression, and the
row's own fields are carried over unchanged. -/
def deriveCPI (r : Record0) : Record :=
  ⟨r.asset, r.assetType, r.performance, r.clicks, r.ctr, r.impr, r.cost, r.installs,
    r.cost / (if r.installs = 0 then 1 else r.installs)⟩

/-- `load_data` (lines 48-56) after reading the spreadsheet: coercion is
already reflected in `RawRow`, then the `dropna` row filter, then the CPI
derivation. -/
def load_data (rows : List RawRow) : List Record :=
  (rows.filterMap toRecord0).map deriveCPI

/-- The `Sort By` selectbox options of line 85. -/
inductive SortField where
  | noSort
  | clicks
  | impr
  | ctr
  | cost
  | installs
  | cpi
deriving DecidableEq

/-- The numeric column a sort field selects. -/
def sortKey : SortField → Record → ℚ
  | .noSort => fun _ => 0
  | .clicks => Record.clicks
  | .impr => Record.impr
  | .ctr => Record.ctr
  | .cost => Record.cost
  | .installs => Record.installs
  | .cpi => Record.cpi

/-- `df_filtered.sort_values(by=sort_by, ascending=...)` of line 91: a
comparison sort ordering the rows by the selected column.  pandas' default
`kind='quicksort'` specifies the ordering by key but leaves the order of
tied rows unspecified (it is not a stable kind); this executable model
realises one such order, and the ordering-contract properties are stated
over arbitrary sorted permutations so that they hold whatever order the
program's sort gives tied rows. -/
def sortValues (key : Record → ℚ) (ascending : Bool) (l : List Record) : List Record :=
  if ascending then l.insertionSort (fun a b => key a ≤ key b)
  else l.insertionSort (fun a b => key b ≤ key a)

/-- The sidebar state of lines 82-86 plus the requested page number of
line 137: selected asset types, selected performance tiers, sort field,
`order == 'Low to High'`, and the page the user asks for. -/
structure FilterState where
  selectedAssets : List String
  selectedPerf : List String
  sortBy : SortField
  lowToHigh : Bool
  requestedPage : Int

/-- Line 89: keep rows whose asset type and performance are both selected
(`df['Asset type'].isin(...) & df['Performance'].isin(...)`). -/
def applyFilter (fs : FilterState) (rows : List Record) : List Record :=
  rows.filter fun r =>
    decide (r.assetType ∈ fs.selectedAssets) && decide (r.performance ∈ fs.selectedPerf)

/-- Lines 89-91: the filtered set, sorted unless `sort_by == 'None'`. -/
def visible (rows : List Record) (fs : FilterState) : List Record :=
  let filtered := applyFilter fs rows
  if fs.sortBy = .noSort then filtered
  else sortValues (sortKey fs.sortBy) fs.lowToHigh filtered

/-- `df[c].mean()` over a column. -/
def meanQ (f : Record → ℚ) (rows : List Record) : ℚ :=
  (rows.map f).sum / (rows.length : ℚ)

/-- The distinct values of a column in first-appearance order (pandas `unique`). -/
def uniques (l : List String) : List String :=
  l.foldl (fun acc x => if x ∈ acc then acc else acc ++ [x]) []

/-- How many loaded rows carry a given asset type. -/
def countType (rows : List Record) (t : String) : Nat :=
  (rows.filter fun r => decide (r.assetType = t)).length

/-- `df['Asset type'].value_counts()` of line 113 as category/count pairs
(the spec declares the order insignificant). -/
def distOf (rows : List Record) : List (String × Nat) :=
  (uniques (rows.map Record.assetType)).map fun t => (t, countType rows t)

/-- The aggregate summary of lines 98-114. -/
structure Summary where
  avgClicks : ℚ
  avgImpr : ℚ
  avgInstalls : ℚ
  avgCost : ℚ
  avgCtr : ℚ
  avgCpi : ℚ
  dist : List (String × Nat)
deriving DecidableEq

/-- Lines 99-113: every average and the distribution read `df`, the full
unfiltered loaded table, never `df_filtered`. -/
def summarize (rows : List Record) : Summary :=
  ⟨meanQ Record.clicks rows, meanQ Record.impr rows, meanQ Record.installs rows,
   meanQ Record.cost rows, meanQ Record.ctr rows, meanQ Record.cpi rows, distOf rows⟩

/-- The sidebar defaults of lines 82-86: every known asset type and every
known performance tier selected, no sort, first page. -/
def defaultFilter (rows : List Record) : FilterState :=
  ⟨uniques (rows.map Record.assetType), uniques (rows.map Record.performance),
    .noSort, false, 1⟩

/-- What one run of the script produces for the card area: either the
`st.warning`/`st.stop` path of lines 92-94, or the summary plus the
paginated slice of lines 97-139. -/
inductive ViewResult where
  | noMatches
  | ok (summary : Summary) (total : Nat) (pages : Nat) (page : Nat)
      (pageRecords : List Record)
deriving DecidableEq

/-- `st.number_input('Page', 1, pages, 1)`: the widget constrains the
requested value to `[1, pages]`. -/
def clampPage (requested : Int) (pages : Nat) : Nat :=
  (max 1 (min requested (pages : Int))).toNat

/-- Lines 89-139 as one function: filter and sort, stop on an empty result,
otherwise report the summary over the full table, `pages = math.ceil(total/10)`,
the (clamped) page number, and `df_filtered.iloc[start:start+10]`. -/
def view (rows : List Record) (fs : FilterState) : ViewResult :=
  let vis := visible rows fs
  if vis.isEmpty then .noMatches
  else
    let total := vis.length
    let pages := (total + 9) / 10
    let page := if 1 < pages then clampPage fs.requestedPage pages else 1
    let start := (page - 1) * 10
    .ok (summarize rows) total pages page ((vis.drop start).take 10)

/-- The `totalPages` a run reports, when it reports one at all. -/
def ViewResult.pagesReported : ViewResult → Option Nat
  | .noMatches => none
  | .ok _ _ pages _ _ => some pages

/-- The summary a run reports, when it reports one at all. -/
def ViewResult.summaryReported : ViewResult → Option Summary
  | .noMatches => none
  | .ok s _ _ _ _ => some s

/-- The records of the reported page, when a page is reported at all. -/
def ViewResult.pageReported : ViewResult → Option (List Record)
  | .noMatches => none
  | .ok _ _ _ _ recs => some recs

/-- The `@st.cache_data` store on `get_youtube_title`: results keyed by the
exact URL string. -/
abbrev TitleCache := List (String × String)

def cacheLookup (c : TitleCache) (url : String) : Option String :=
  match c.find? (fun p => p.1 == url) with
  | some p => some p.2
  | none => none

/-- One call through the memoized `get_youtube_title`: the returned string,
the cache afterwards, and how many network fetches the call performed. -/
structure CallResult where
  value : String
  cache : TitleCache
  fetches : Nat
deriving DecidableEq

/-- `@st.cache_data` semantics around `get_youtube_title` (lines 58-65):
return the cached value on a hit, otherwise run the body (one fetch) and
store the result under the exact URL string. -/
def cachedTitle (fetch : String → FetchOutcome) (c : TitleCache) (url : String) :
    CallResult :=
  match cacheLookup c url with
  | some v => ⟨v, c, 0⟩
  | none =>
    let v := get_youtube_title fetch url
    ⟨v, (url, v) :: c, 1⟩

/-- Sample records used to evaluate the theorems on concrete inputs. -/
def rA : Record := ⟨"A", "T", "Good", 5, 0, 1, 1, 1, 1⟩

def rB : Record := ⟨"B", "T", "Good", 5, 0, 1, 1, 1, 1⟩

def rC : Record := ⟨"C", "T", "Good", 3, 0, 1, 1, 1, 1⟩

def rD : Record := ⟨"D", "T", "Good", 7, 0, 1, 1, 1, 1⟩

def rE : Record := ⟨"E", "U", "Low", 2, 0, 1, 1, 1, 1⟩

/-- A filter state selecting nothing at all. -/
def fsNone : FilterState := ⟨[], [], .noSort, false, 1⟩

/-- A filter state selecting only asset type `"T"` with every tier. -/
def fsT : FilterState := ⟨["T"], ["Good", "Low"], .noSort, false, 1⟩

/-- A fetch oracle whose every request raises. -/
def fetchFail : String → FetchOutcome := fun _ => .failure

/-- A fetch oracle answering every request with a 404 page that still has a
`<title>` element. -/
def fetch404 : String → FetchOutcome := fun _ => .success 404 (some "Not Found")

/-- A HEAD oracle reporting an image content type for one fixed URL. -/
def headPic : String → Option String :=
  fun u => if u = "https://example.com/pic.jpg" then some "image/jpeg" else none

/-- A raw row whose five metric cells all parsed. -/
def rawGood : RawRow := ⟨"u", "T", "Good", some 1, some 2, some 3, some 6, some 3, none⟩

/-- A raw row whose `Clicks` cell failed numeric parsing. -/
def rawBad : RawRow := ⟨"v", "T", "Low", none, some 2, some 3, some 4, some 5, some 6⟩

/-- A row fails the `dropna` filter exactly when one of its five metric cells
did not parse. -/
theorem toRecord0_eq_none_iff (r : RawRow) : toRecord0 r = none ↔ goodRow r = false := by
  obtain ⟨a, ty, p, cl, ct, im, co, ins, ik⟩ := r
  cases cl <;> cases ct <;> cases im <;> cases co <;> cases ins <;>
    simp [toRecord0, goodRow]

/-- C3: for every row surviving the load step, the derived CPI equals
`cost / installs` when `installs > 0` and equals `cost` itself when
`installs = 0` — the divide-by-one-on-zero policy; the value is a
well-defined rational, never infinite or missing. -/
theorem cpi_zero_guard_policy (r : Record0) :
    (0 < r.installs → (deriveCPI r).cpi = r.cost / r.installs)
    ∧ (r.installs = 0 → (deriveCPI r).cpi = r.cost) := by
  constructor
  · intro h
    have h0 : r.installs ≠ 0 := ne_of_gt h
    simp [deriveCPI, h0]
  · intro h
    simp [deriveCPI, h]

/-- Evaluating the CPI policy on concrete rows: `installs = 3` divides,
`installs = 0` reports the raw cost. -/
theorem cpi_zero_guard_policy_witness :
    ((0:ℚ) < 3 ∧ (deriveCPI ⟨"u", "T", "Good", 1, 2, 3, 6, 3⟩).cpi = (6:ℚ) / 3)
    ∧ ((deriveCPI ⟨"u", "T", "Good", 1, 2, 3, 6, 0⟩).cpi = 6) :=
  ⟨⟨by norm_num, (cpi_zero_guard_policy ⟨"u", "T", "Good", 1, 2, 3, 6, 3⟩).1 (by norm_num)⟩,
   (cpi_zero_guard_policy ⟨"u", "T", "Good", 1, 2, 3, 6, 0⟩).2 rfl⟩

/-- C9: deriving CPI is a pure extension of the record: every other field is
identical before and after, and in particular a zero `installs` stays zero —
the `replace(0,1)` substitution only affects the divisor expression. -/
theorem deriveCPI_frame (r : Record0) :
    (deriveCPI r).asset = r.asset ∧ (deriveCPI r).assetType = r.assetType
    ∧ (deriveCPI r).performance = r.performance ∧ (deriveCPI r).clicks = r.clicks
    ∧ (deriveCPI r).ctr = r.ctr ∧ (deriveCPI r).impr = r.impr
    ∧ (deriveCPI r).cost = r.cost ∧ (deriveCPI r).installs = r.installs
    ∧ (r.installs = 0 → (deriveCPI r).installs = 0) :=
  ⟨rfl, rfl, rfl, rfl, rfl, rfl, rfl, rfl, fun h => h⟩

/-- The frame property on a concrete zero-install row: the stored `installs`
remains `0` after the CPI derivation. -/
theorem deriveCPI_frame_witness :
    (deriveCPI ⟨"u", "T", "Good", 1, 2, 3, 6, 0⟩).installs = 0 :=
  (deriveCPI_frame ⟨"u", "T", "Good", 1, 2, 3, 6, 0⟩).2.2.2.2.2.2.2.2 rfl

/-- C7: every record of the loaded working set originates from an input row
whose five metric cells all parsed (so all its metric fields are well-defined
rationals), and an input row with any unparseable metric cell contributes
nothing: deleting it leaves the loaded set unchanged, and loading the
remaining rows proceeds normally (no abort). -/
theorem load_data_row_filter (rows : List RawRow) :
    (∀ x ∈ load_data rows, ∃ r ∈ rows, goodRow r = true
        ∧ ∃ r0, toRecord0 r = some r0 ∧ x = deriveCPI r0)
    ∧ (∀ (pre post : List RawRow) (b : RawRow), goodRow b = false →
        load_data (pre ++ b :: post) = load_data (pre ++ post)) := by
  constructor
  · intro x hx
    unfold load_data at hx
    rw [List.mem_map] at hx
    obtain ⟨r0, hr0, rfl⟩ := hx
    rw [List.mem_filterMap] at hr0
    obtain ⟨r, hr, hsome⟩ := hr0
    refine ⟨r, hr, ?_, r0, hsome, rfl⟩
    by_contra hg
    have hg' : goodRow r = false := by
      cases h : goodRow r
      · rfl
      · exact absurd h hg
    rw [← toRecord0_eq_none_iff] at hg'
    rw [hg'] at hsome
    exact Option.noConfusion hsome
  · intro pre post b hb
    unfold load_data
    rw [List.filterMap_append, List.filterMap_append,
      List.filterMap_cons_none ((toRecord0_eq_none_iff b).mpr hb)]

/-- Loading a concrete bad row contributes nothing, and the concrete good
row's record originates from a fully parsed row. -/
theorem load_data_row_filter_witness :
    load_data ([] ++ rawBad :: []) = load_data ([] ++ [])
    ∧ ∃ r ∈ [rawGood], goodRow r = true
        ∧ ∃ r0, toRecord0 r = some r0
        ∧ deriveCPI ⟨"u", "T", "Good", 1, 2, 3, 6, 3⟩ = deriveCPI r0 := by
  refine ⟨(load_data_row_filter []).2 [] [] rawBad rfl, ?_⟩
  exact (load_data_row_filter [rawGood]).1 (deriveCPI ⟨"u", "T", "Good", 1, 2, 3, 6, 3⟩)
    (List.mem_singleton.mpr rfl)

/-- C4: classification is an ordered first-match decision over every assetRef:
passing the HTTP test and containing a video-host marker gives Video; else an
HTTP assetRef whose header probe reports an image content type gives Image
with empty display title; every other assetRef gives Text with the raw
assetRef verbatim; with the spec's three examples. -/
theorem classify_first_match (fetch : String → FetchOutcome)
    (head : String → Option String) (url : String) :
    (strStartsWith url "http" = true → hasVideoMarker url = true →
      (classify fetch head url).kind = .video)
    ∧ (strStartsWith url "http" = true → hasVideoMarker url = false →
        is_image_url head url = true → classify fetch head url = ⟨.image, ""⟩)
    ∧ (strStartsWith url "http" = false → classify fetch head url = ⟨.text, url⟩)
    ∧ (hasVideoMarker url = false → is_image_url head url = false →
        classify fetch head url = ⟨.text, url⟩)
    ∧ ((classify fetch head "https://youtu.be/abc123").kind = .video)
    ∧ (head "https://example.com/pic.jpg" = some "image/jpeg" →
        classify fetch head "https://example.com/pic.jpg" = ⟨.image, ""⟩)
    ∧ (classify fetch head "Banner text" = ⟨.text, "Banner text"⟩) := by
  refine ⟨?_, ?_, ?_, ?_, ?_, ?_, ?_⟩
  · intro h1 h2
    simp [classify, h1, h2]
  · intro h1 h2 h3
    simp [classify, h1, h2, h3]
  · intro h1
    simp [classify, h1]
  · intro h1 h2
    cases hs : strStartsWith url "http" <;> simp [classify, hs, h1, h2]
  · have h1 : strStartsWith "https://youtu.be/abc123" "http" = true := by decide
    have h2 : hasVideoMarker "https://youtu.be/abc123" = true := by decide
    simp [classify, h1, h2]
  · intro hh
    have h1 : strStartsWith "https://example.com/pic.jpg" "http" = true := by decide
    have h2 : hasVideoMarker "https://example.com/pic.jpg" = false := by decide
    have h3 : is_image_url head "https://example.com/pic.jpg" = true := by
      rw [is_image_url, hh]
      decide
    simp [classify, h1, h2, h3]
  · have h1 : strStartsWith "Banner text" "http" = false := by decide
    simp [classify, h1]

/-- The three example assetRefs of the spec, classified with concrete
oracles: a failing fetch and a HEAD oracle recognising only the example
image URL. -/
theorem classify_first_match_witness :
    (classify fetchFail headPic "https://youtu.be/abc123").kind = .video
    ∧ classify fetchFail headPic "https://example.com/pic.jpg" = ⟨.image, ""⟩
    ∧ classify fetchFail headPic "Banner text" = ⟨.text, "Banner text"⟩ :=
  ⟨(classify_first_match fetchFail headPic "u").2.2.2.2.1,
   (classify_first_match fetchFail headPic "u").2.2.2.2.2.1 (by decide),
   (classify_first_match fetchFail headPic "u").2.2.2.2.2.2⟩

/-- C10: the URL detection of line 148 is the plain four-character test
`url.startswith('http')`: any assetRef passing it that has no video marker —
including non-URLs such as `"httpbanner"` — triggers the image header probe
and is classified Image or Text according to the probe, never Text directly
without the probe. -/
theorem http_prefix_classification (fetch : String → FetchOutcome)
    (head : String → Option String) (url : String)
    (hpre : strStartsWith url "http" = true) (hvm : hasVideoMarker url = false) :
    probeInvoked url = true
    ∧ (classify fetch head url).kind
        = (if is_image_url head url then Kind.image else Kind.text)
    ∧ strStartsWith "httpbanner" "http" = true
    ∧ probeInvoked "httpbanner" = true
    ∧ (classify fetch (fun _ => some "image/png") "httpbanner").kind = .image
    ∧ (classify fetch (fun _ => none) "httpbanner").kind = .text := by
  refine ⟨?_, ?_, by decide, by decide, ?_, ?_⟩
  · simp [probeInvoked, hpre, hvm]
  · cases himg : is_image_url head url <;> simp [classify, hpre, hvm, himg]
  · have h1 : strStartsWith "httpbanner" "http" = true := by decide
    have h2 : hasVideoMarker "httpbanner" = false := by decide
    have h3 : is_image_url (fun _ => some "image/png") "httpbanner" = true := by decide
    simp [classify, h1, h2, h3]
  · have h1 : strStartsWith "httpbanner" "http" = true := by decide
    have h2 : hasVideoMarker "httpbanner" = false := by decide
    have h3 : is_image_url (fun _ => (none : Option String)) "httpbanner" = false := by decide
    simp [classify, h1, h2, h3]

/-- The prefix-test behaviour evaluated at the concrete non-URL
`"httpbanner"`. -/
theorem http_prefix_classification_witness :
    probeInvoked "httpbanner" = true
    ∧ (classify fetchFail headPic "httpbanner").kind
        = (if is_image_url headPic "httpbanner" then Kind.image else Kind.text)
    ∧ strStartsWith "httpbanner" "http" = true
    ∧ probeInvoked "httpbanner" = true
    ∧ (classify fetchFail (fun _ => some "image/png") "httpbanner").kind = .image
    ∧ (classify fetchFail (fun _ => none) "httpbanner").kind = .text :=
  http_prefix_classification fetchFail headPic "httpbanner" (by decide) (by decide)

/-- C5 counterexample: the code never inspects the HTTP status.  A fetch
answering with status 404 and a body whose `<title>` is `"Not Found"` makes
`get_youtube_title` return `"Not Found"` — not the last path segment `"xyz"`
the claim requires for a non-2xx response. -/
theorem title_non2xx_no_fallback :
    get_youtube_title fetch404 "https://youtu.be/xyz" = "Not Found"
    ∧ get_youtube_title fetch404 "https://youtu.be/xyz"
        ≠ lastSegment "https://youtu.be/xyz" := by
  constructor
  · decide
  · decide

/-- C5 amended: the resolver is total (never raises): on a raised request
exception or an absent title element it returns the last path segment of the
URL; whenever the response body yields a title element — regardless of the
HTTP status, including non-2xx — it returns that title text with every
occurrence of `" - YouTube"` removed and surrounding whitespace stripped. -/
theorem title_resolver_total (fetch : String → FetchOutcome) (url : String) :
    (fetch url = .failure → get_youtube_title fetch url = lastSegment url)
    ∧ (∀ s : Nat, fetch url = .success s none →
        get_youtube_title fetch url = lastSegment url)
    ∧ (∀ (s : Nat) (t : String), fetch url = .success s (some t) →
        get_youtube_title fetch url = ⟨pyStrip (pyRemove t.data " - YouTube".data)⟩) := by
  refine ⟨?_, ?_, ?_⟩
  · intro h
    simp [get_youtube_title, h]
  · intro s h
    simp [get_youtube_title, h]
  · intro s t h
    simp [get_youtube_title, h]

/-- The erroring-fetch example of the spec: a failed fetch for
`"https://youtu.be/xyz"` falls back to the last path segment `"xyz"`. -/
theorem title_resolver_total_witness :
    get_youtube_title fetchFail "https://youtu.be/xyz" = lastSegment "https://youtu.be/xyz"
    ∧ get_youtube_title fetchFail "https://youtu.be/xyz" = "xyz" := by
  refine ⟨(title_resolver_total fetchFail "https://youtu.be/xyz").1 rfl, ?_⟩
  rw [(title_resolver_total fetchFail "https://youtu.be/xyz").1 rfl]
  decide

/-- C8: two calls through the memoized resolver with the same exact URL
perform the underlying fetch at most once — the second call is a cache hit
performing zero fetches — and both calls return the identical string. -/
theorem cachedTitle_memoizes (fetch : String → FetchOutcome) (c : TitleCache)
    (url : String) :
    (cachedTitle fetch c url).fetches ≤ 1
    ∧ (cachedTitle fetch (cachedTitle fetch c url).cache url).fetches = 0
    ∧ (cachedTitle fetch (cachedTitle fetch c url).cache url).value
        = (cachedTitle fetch c url).value := by
  unfold cachedTitle cacheLookup
  cases h : c.find? (fun p => p.1 == url) with
  | some p => simp [h]
  | none => simp [h, List.find?_cons]

/-- The embedded sort permutes its input (both directions). -/
theorem sortValues_perm (key : Record → ℚ) (asc : Bool) (l : List Record) :
    (sortValues key asc l).Perm l := by
  cases asc
  · unfold sortValues
    simp only [Bool.false_eq_true, if_false]
    exact List.perm_insertionSort _ l
  · unfold sortValues
    simp only [if_true]
    exact List.perm_insertionSort _ l

/-- The embedded ascending sort is ordered by the key. -/
theorem sortValues_sorted_asc (key : Record → ℚ) (l : List Record) :
    (sortValues key true l).Sorted fun a b => key a ≤ key b := by
  haveI : IsTotal Record (fun a b => key a ≤ key b) := ⟨fun a b => le_total _ _⟩
  haveI : IsTrans Record (fun a b => key a ≤ key b) := ⟨fun a b c h1 h2 => le_trans h1 h2⟩
  unfold sortValues
  simp only [if_true]
  exact List.sorted_insertionSort _ l

/-- The embedded descending sort is ordered by the key. -/
theorem sortValues_sorted_desc (key : Record → ℚ) (l : List Record) :
    (sortValues key false l).Sorted fun a b => key b ≤ key a := by
  haveI : IsTotal Record (fun a b => key b ≤ key a) := ⟨fun a b => le_total _ _⟩
  haveI : IsTrans Record (fun a b => key b ≤ key a) := ⟨fun a b c h1 h2 => le_trans h2 h1⟩
  unfold sortValues
  simp only [Bool.false_eq_true, if_false]
  exact List.sorted_insertionSort _ l

/-- Tie-order independence: any two permutations of the same list that are
ordered by the key ascending resp. descending are exact reverses of each
other when the key values are pairwise distinct — whatever order either
sort gives tied rows. -/
theorem sorted_perm_reverse (key : Record → ℚ) (l asc desc : List Record)
    (hpa : asc.Perm l) (hpd : desc.Perm l)
    (hsa : asc.Sorted fun a b => key a ≤ key b)
    (hsd : desc.Sorted fun a b => key b ≤ key a)
    (hnd : l.Pairwise fun a b => key a ≠ key b) :
    desc = asc.reverse := by
  haveI : IsAntisymm Record (fun a b => key b < key a) :=
    ⟨fun a b h1 h2 => absurd h1 (not_lt.mpr h2.le)⟩
  have hnda : asc.Pairwise fun a b => key a ≠ key b :=
    (hpa.pairwise_iff (fun h => Ne.symm h)).mpr hnd
  have hndd : desc.Pairwise fun a b => key a ≠ key b :=
    (hpd.pairwise_iff (fun h => Ne.symm h)).mpr hnd
  have hs1 : List.Sorted (fun a b : Record => key b < key a) desc :=
    (List.Pairwise.and hsd hndd).imp fun h => lt_of_le_of_ne h.1 (Ne.symm h.2)
  have hs2 : List.Sorted (fun a b : Record => key b < key a) asc.reverse := by
    rw [List.Sorted, List.pairwise_reverse]
    exact (List.Pairwise.and hsa hnda).imp fun h => lt_of_le_of_ne h.1 h.2
  have hperm : desc.Perm asc.reverse :=
    hpd.trans (hpa.symm.trans (List.reverse_perm _).symm)
  exact List.eq_of_perm_of_sorted hperm hs1 hs2

/-- C1 amended: sorting the filtered set by a numeric field returns a
permutation of it ordered by that field's value in the requested direction —
the part of the `sort_values` contract pandas specifies; the default
`kind='quicksort'` leaves the order of tied rows unspecified, so no
stability is asserted.  For any pair of runs meeting that ordering contract
— whatever order either gives tied rows — sorting one direction then the
opposite yields the exact reverse sequence whenever the rows' sort-field
values are pairwise distinct; on tied rows the exact-reverse property fails
(see the counterexample). -/
theorem sortValues_ordering (key : Record → ℚ) (l : List Record) :
    ((sortValues key true l).Perm l
      ∧ (sortValues key true l).Sorted fun a b => key a ≤ key b)
    ∧ ((sortValues key false l).Perm l
      ∧ (sortValues key false l).Sorted fun a b => key b ≤ key a)
    ∧ (∀ asc desc : List Record,
        asc.Perm l → desc.Perm l →
        (asc.Sorted fun a b => key a ≤ key b) →
        (desc.Sorted fun a b => key b ≤ key a) →
        (l.Pairwise fun a b => key a ≠ key b) →
        desc = asc.reverse) :=
  ⟨⟨sortValues_perm key true l, sortValues_sorted_asc key l⟩,
   ⟨sortValues_perm key false l, sortValues_sorted_desc key l⟩,
   fun asc desc hpa hpd hsa hsd hnd =>
     sorted_perm_reverse key l asc desc hpa hpd hsa hsd hnd⟩

/-- C1 counterexample: on the two tied rows `[rA, rB]` (equal Clicks), both
sort directions deterministically return the rows in their original order —
a two-element array costs the sort one comparison, which ties, and pandas'
descending path (reverse, ascending argsort, reverse back) then also
reproduces the original order — so the descending result `[rA, rB]` is not
the reverse `[rB, rA]` of the ascending result, refuting reverse-equality
"including on rows whose sort-field values tie".  The executable model
agrees with the program's sort at this input. -/
theorem sortValues_reverse_fails_on_ties :
    sortValues (sortKey .clicks) false [rA, rB]
      ≠ (sortValues (sortKey .clicks) true [rA, rB]).reverse := by
  decide

/-- The ordering contract evaluated on the concrete distinct-key list
`[rC, rD]` (Clicks 3 and 7): the two directions are exact reverses. -/
theorem sortValues_ordering_witness :
    sortValues (sortKey .clicks) false [rC, rD]
      = (sortValues (sortKey .clicks) true [rC, rD]).reverse :=
  (sortValues_ordering (sortKey .clicks) [rC, rD]).2.2
    (sortValues (sortKey .clicks) true [rC, rD])
    (sortValues (sortKey .clicks) false [rC, rD])
    (by decide) (by decide) (by decide) (by decide) (by decide)

/-- Inversion of a successful run: the reported components in terms of the
visible (filtered and sorted) list. -/
theorem view_ok_inv {rows : List Record} {fs : FilterState} {s : Summary}
    {total pages page : Nat} {recs : List Record}
    (h : view rows fs = .ok s total pages page recs) :
    visible rows fs ≠ []
    ∧ s = summarize rows
    ∧ total = (visible rows fs).length
    ∧ pages = (total + 9) / 10
    ∧ page = (if 1 < pages then clampPage fs.requestedPage pages else 1)
    ∧ recs = ((visible rows fs).drop ((page - 1) * 10)).take 10 := by
  simp only [view] at h
  by_cases he : (visible rows fs).isEmpty = true
  · rw [if_pos he] at h
    exact absurd h (by simp)
  · rw [if_neg he] at h
    injection h with h1 h2 h3 h4 h5
    subst h1
    subst h2
    subst h3
    subst h4
    subst h5
    exact ⟨by simpa using he, rfl, rfl, rfl, rfl, rfl⟩

/-- C2 amended: whenever the engine reports a page at all (the filtered set
is nonempty, `totalCount ≥ 1`), `totalPages = max(1, ceil(totalCount/10))
= ceil(totalCount/10)`, the requested page number is clamped into
`[1, totalPages]`, and the reported records are the slice
`[(page-1)*10, page*10)` of the filtered (and sorted) records; when the
filtered set is empty (`totalCount = 0`) the engine reports the no-matches
state and no `totalPages` at all (see the counterexample). -/
theorem view_pagination (rows : List Record) (fs : FilterState) (s : Summary)
    (total pages page : Nat) (recs : List Record)
    (h : view rows fs = .ok s total pages page recs) :
    total = (visible rows fs).length
    ∧ 1 ≤ total
    ∧ pages = max 1 ((total + 9) / 10)
    ∧ page = clampPage fs.requestedPage pages
    ∧ 1 ≤ page ∧ page ≤ pages
    ∧ recs = ((visible rows fs).drop ((page - 1) * 10)).take 10 := by
  obtain ⟨hne, _, htotal, hpages, hpage, hrecs⟩ := view_ok_inv h
  have htpos : 1 ≤ total := by
    rw [htotal]
    exact List.length_pos.mpr hne
  have hppos : 1 ≤ pages := by omega
  have hclamp1 : 1 ≤ clampPage fs.requestedPage pages := by
    unfold clampPage
    omega
  have hclamp2 : clampPage fs.requestedPage pages ≤ pages := by
    unfold clampPage
    omega
  have hpage' : page = clampPage fs.requestedPage pages := by
    rw [hpage]
    by_cases h1 : 1 < pages
    · rw [if_pos h1]
    · rw [if_neg h1]
      have hp1 : pages = 1 := by omega
      rw [hp1]
      unfold clampPage
      omega
  refine ⟨htotal, htpos, by omega, hpage', ?_, ?_, hrecs⟩
  · rw [hpage']
    exact hclamp1
  · rw [hpage']
    exact hclamp2

/-- C2 counterexample: with one loaded row and a filter selecting nothing the
filtered `totalCount` is 0; the script stops at the no-matches warning and
reports no `totalPages` — in particular not the `max(1, ceil(0/10)) = 1` the
claim requires for `totalCount = 0`. -/
theorem view_empty_reports_no_pages :
    (view [rA] fsNone).pagesReported ≠ some (max 1 ((0 + 9) / 10)) := by
  decide

/-- Pagination evaluated on a concrete one-row run: one page of ten, page 1,
the single record reported. -/
theorem view_pagination_witness :
    1 = (visible [rA] (defaultFilter [rA])).length
    ∧ 1 ≤ 1
    ∧ 1 = max 1 ((1 + 9) / 10)
    ∧ 1 = clampPage (defaultFilter [rA]).requestedPage 1
    ∧ 1 ≤ 1 ∧ 1 ≤ 1
    ∧ [rA] = ((visible [rA] (defaultFilter [rA])).drop ((1 - 1) * 10)).take 10 :=
  view_pagination [rA] (defaultFilter [rA]) (summarize [rA]) 1 1 1 [rA] rfl

/-- Folding distinct values never loses a member. -/
theorem mem_uniques_fold (l : List String) (acc : List String) (x : String) :
    x ∈ l.foldl (fun a y => if y ∈ a then a else a ++ [y]) acc
      ↔ x ∈ acc ∨ x ∈ l := by
  induction l generalizing acc with
  | nil => simp
  | cons y ys ih =>
    rw [List.foldl_cons, ih]
    by_cases h : y ∈ acc
    · rw [if_pos h]
      constructor
      · rintro (hx | hx)
        · exact Or.inl hx
        · exact Or.inr (List.mem_cons_of_mem _ hx)
      · rintro (hx | hx)
        · exact Or.inl hx
        · rcases List.mem_cons.mp hx with rfl | hx
          · exact Or.inl h
          · exact Or.inr hx
    · rw [if_neg h]
      simp only [List.mem_append, List.mem_singleton, List.mem_cons]
      tauto

/-- Every value of the column appears among its distinct values. -/
theorem mem_uniques {l : List String} {x : String} (hx : x ∈ l) : x ∈ uniques l := by
  unfold uniques
  rw [mem_uniques_fold]
  exact Or.inr hx

/-- The default sidebar filter (all values selected) keeps every row. -/
theorem applyFilter_default (rows : List Record) :
    applyFilter (defaultFilter rows) rows = rows := by
  unfold applyFilter
  rw [List.filter_eq_self]
  intro r hr
  simp only [Bool.and_eq_true, decide_eq_true_eq]
  exact ⟨mem_uniques (List.mem_map_of_mem _ hr),
    mem_uniques (List.mem_map_of_mem _ hr)⟩

/-- With the default filter (no sort, everything selected) the visible list
is the loaded list itself. -/
theorem visible_default (rows : List Record) :
    visible rows (defaultFilter rows) = rows := by
  simp only [visible]
  rw [if_pos (show (defaultFilter rows).sortBy = SortField.noSort from rfl)]
  exact applyFilter_default rows

/-- C6: the reported summary (per-metric averages and asset-type
distribution) is computed over the full unfiltered loaded dataset: a run
under any filter leaving a nonempty visible set of `M < N` rows reports
exactly the summary of the whole dataset, identical to the run under the
default (no-op) filter. -/
theorem summary_ignores_filter (rows : List Record) (fs : FilterState)
    (hne : visible rows fs ≠ []) (hM : (visible rows fs).length < rows.length) :
    (view rows fs).summaryReported = some (summarize rows)
    ∧ (view rows fs).summaryReported
        = (view rows (defaultFilter rows)).summaryReported := by
  have h1 : (view rows fs).summaryReported = some (summarize rows) := by
    simp only [view]
    rw [if_neg (by simpa using hne)]
    rfl
  have hrows : rows ≠ [] := by
    intro h
    rw [h] at hM
    simp at hM
  have h2 : (view rows (defaultFilter rows)).summaryReported
      = some (summarize rows) := by
    simp only [view, visible_default]
    rw [if_neg (by simpa using hrows)]
    rfl
  exact ⟨h1, h1.trans h2.symm⟩

/-- The filter-independence of the summary evaluated concretely: two loaded
rows, a filter keeping only asset type `"T"` (one visible row). -/
theorem summary_ignores_filter_witness :
    (view [rA, rE] fsT).summaryReported = some (summarize [rA, rE])
    ∧ (view [rA, rE] fsT).summaryReported
        = (view [rA, rE] (defaultFilter [rA, rE])).summaryReported :=
  summary_ignores_filter [rA, rE] fsT (by decide) (by decide)

end Dashboard
